import Mathlib

/-!
Verification of the audit-management classification scripts
(`csv_column_classifier.py`, `run_classifier.py`, `xlsx_parser.py`).

Shallow embedding conventions:
* Cell values that reach the classifier are modelled as `String` (the code
  stringifies every sampled value with `str`); a column is a
  `List (Option String)` where `none` is a missing (NaN) cell and
  `List.filterMap id` is pandas `dropna`.
* Confidences are rationals (`ℚ`); the Python float literal `0.6` becomes
  `3/5`.
* The LLM transport (`ollama.chat` + `json.loads`) is modelled by
  `ChatOutcome`: a transport failure, a reply whose body is not valid JSON
  (`reply none`), or a parsed JSON value (`reply (some j)`).
* The prompt-rendering functions are pure string templates whose content no
  verified property inspects; a prompt is therefore embedded as the tuple of
  the data the template interpolates (`ColumnPrompt`, `DeptPrompt`), and the
  classification client consumed by the processing functions is an arbitrary
  function from prompts to typed replies.
* `pandas.Series.sample(n, random_state=1)` draws `n` rows without
  replacement using a fixed seed; it is embedded as a function
  `sampler : Nat → Nat → List Nat` giving, for a requested size and a column
  length, the list of drawn positions.  The seed being fixed, the draw is a
  pure function of its arguments.
-/

/-- A JSON value, the possible results of `json.loads` on the reply body. -/
inductive JValue where
  | str (s : String)
  | num (q : ℚ)
  | bool (b : Bool)
  | null
  | arr (elems : List JValue)
  | obj (fields : List (String × JValue))

/-- Outcome of one `ollama.chat` call as seen by the client wrapper:
the transport raised, or it returned a message body that `json.loads`
either rejects (`reply none`) or parses to a `JValue`. -/
inductive ChatOutcome where
  | failure
  | reply (content : Option JValue)

/-- Whether `pat` is a contiguous substring of `l` (both as character
lists), written with structural recursion so it evaluates in the kernel. -/
def charsContains (pat : List Char) : List Char → Bool
  | [] => pat.isEmpty
  | c :: rest => pat.isPrefixOf (c :: rest) || charsContains pat rest

/-- Python `'k' in result` on a parsed JSON value, with Python's
type-dependent semantics: key membership on a dict, element membership on a
list (a list element equals the string `k` only if it is that string),
substring containment on a string, and a `TypeError` (modelled as `none`)
on numbers, booleans and `None` — a raised `TypeError` is swallowed by the
wrapper's blanket `except` and leads to the fallback. -/
def JValue.pyIn : JValue → String → Option Bool
  | .obj fields, k => some (fields.any fun p => p.1 = k)
  | .arr elems, k =>
    some (elems.any fun e =>
      match e with
      | .str s => s = k
      | _ => false)
  | .str s, k => some (charsContains k.data s.data)
  | .num _, _ => none
  | .bool _, _ => none
  | .null, _ => none

/-- The fallback dict `{"category": "OTHER", "confidence": 0.0}`. -/
def columnFallback : JValue :=
  .obj [("category", .str "OTHER"), ("confidence", .num 0)]

/-- The fallback dict `{"department": "OTHER", "confidence": 0.0}`. -/
def deptFallback : JValue :=
  .obj [("department", .str "OTHER"), ("confidence", .num 0)]

namespace Llama3Client

/-- `Llama3Client.classify_column`: call the model, parse the JSON body and
run the validation `if 'category' not in result or 'confidence' not in
result: raise ValueError`.  A payload whose two membership tests succeed is
returned verbatim (whatever its JSON type); any transport failure, JSON
parse failure, failed membership test or membership `TypeError` is caught
by the blanket `except` and degraded to
`{category: "OTHER", confidence: 0.0}`. -/
def classify_column (chat : ChatOutcome) : JValue :=
  match chat with
  | .failure => columnFallback
  | .reply none => columnFallback
  | .reply (some j) =>
    if j.pyIn "category" = some true ∧ j.pyIn "confidence" = some true then j
    else columnFallback

/-- `Llama3Client.classify_department`: same shape with the `department`
key and the `{department: "OTHER", confidence: 0.0}` fallback. -/
def classify_department (chat : ChatOutcome) : JValue :=
  match chat with
  | .failure => deptFallback
  | .reply none => deptFallback
  | .reply (some j) =>
    if j.pyIn "department" = some true ∧ j.pyIn "confidence" = some true then j
    else deptFallback

end Llama3Client

/-- `COLUMN_CATEGORIES` from `csv_column_classifier.py`. -/
def COLUMN_CATEGORIES : List String :=
  ["ticket_number", "title", "description", "department", "priority",
   "status", "due_date", "assigned_to", "created_at", "OTHER"]

/-- `FIXED_DEPARTMENTS` from `csv_column_classifier.py`. -/
def FIXED_DEPARTMENTS : List String :=
  ["IT", "Finance", "HR", "Operations", "Legal", "Compliance",
   "Marketing", "Sales", "OTHER"]

/-- `CONFIDENCE_THRESHOLD = 0.6`. -/
def CONFIDENCE_THRESHOLD : ℚ := 3 / 5

/-- The data `create_column_prompt` interpolates into its template. -/
structure ColumnPrompt where
  header : String
  dtype : String
  sample_list : List String
  categories : List String
  deriving DecidableEq

/-- The data `create_department_prompt` interpolates into its template. -/
structure DeptPrompt where
  department_value : Option String
  title : Option String
  description : Option String
  departments : List String
  deriving DecidableEq

/-- A well-typed column reply as `process_column` consumes it
(`result['category']` a string, `result['confidence']` a number). -/
structure ColReply where
  category : String
  confidence : ℚ
  deriving DecidableEq

/-- A well-typed department reply as `process_department` consumes it. -/
structure DeptReply where
  department : String
  confidence : ℚ
  deriving DecidableEq

/-- The dictionary `process_column` returns. `reason` is `none` when the
code never sets the key. -/
structure ColumnResult where
  category : String
  confidence : ℚ
  needs_manual_review : Bool
  reason : Option String
  deriving DecidableEq

/-- The dictionary `process_department` returns.  `department` is the key
the client reply already carried; `suggested`, `source`, `row`, `original`
are added by `process_department`. -/
structure DeptResult where
  department : String
  confidence : ℚ
  row : Nat
  original : String
  suggested : String
  source : String
  needs_manual_review : Bool
  reason : Option String
  deriving DecidableEq

/-- Python `str.strip()`: drop leading and trailing whitespace.  Defined on
the character list so that it evaluates inside the kernel. -/
def pyStrip (s : String) : String :=
  ⟨((s.data.dropWhile Char.isWhitespace).reverse.dropWhile
      Char.isWhitespace).reverse⟩

/-- The five pseudo-randomly drawn values:
`non_null_column.sample(n=min(5, len(non_null_column)), random_state=1)`,
with the seeded draw abstracted as `sampler` (positions out of range
contribute nothing; a faithful draw only returns in-range positions). -/
def random_draw (sampler : Nat → Nat → List Nat) (vals : List String) :
    List String :=
  (sampler (min 5 vals.length) vals.length).filterMap fun i => vals.get? i

/-- Lines 326–337 of `process_column`: first five values, plus the seeded
draw, stringified, deduplicated (`list(set(...))`) and capped at ten. -/
def sample_values (sampler : Nat → Nat → List Nat) (vals : List String) :
    List String :=
  ((vals.take 5 ++ random_draw sampler vals).dedup).take 10

/-- The column prompt `process_column` builds for a non-empty column. -/
def column_prompt_of (sampler : Nat → Nat → List Nat)
    (column : List (Option String)) (column_name dtype : String)
    (categories : List String) : ColumnPrompt :=
  ⟨column_name, dtype, sample_values sampler (column.filterMap id), categories⟩

/-- `process_column` from `csv_column_classifier.py` (lines 293–352). -/
def process_column (sampler : Nat → Nat → List Nat)
    (client : ColumnPrompt → ColReply) (column : List (Option String))
    (column_name dtype : String) (categories : List String) : ColumnResult :=
  let non_null := column.filterMap id
  if non_null.length = 0 then
    ⟨"OTHER", 0, true, some "Column is empty"⟩
  else
    let result := client (column_prompt_of sampler column column_name dtype categories)
    if result.confidence < CONFIDENCE_THRESHOLD then
      ⟨"OTHER", result.confidence, true,
        some ("Low confidence (" ++ toString result.confidence ++ ")")⟩
    else
      ⟨result.category, result.confidence, false, none⟩

/-- The truthiness test `department_value and str(department_value).strip()`
used both by `create_department_prompt` and by `process_department`. -/
def dept_value_present : Option String → Bool
  | some s => pyStrip s ≠ ""
  | none => false

/-- `process_department` from `csv_column_classifier.py` (lines 355–401). -/
def process_department (client : DeptPrompt → DeptReply) (row_index : Nat)
    (department_value title description : Option String)
    (departments : List String) : DeptResult :=
  let result := client ⟨department_value, title, description, departments⟩
  let original := (department_value.getD "")
  let source :=
    if dept_value_present department_value then "normalized"
    else "inferred_from_content"
  if result.confidence < CONFIDENCE_THRESHOLD then
    { department := result.department, confidence := result.confidence,
      row := row_index, original := original, suggested := "OTHER",
      source := source, needs_manual_review := true,
      reason := some ("Low confidence (" ++ toString result.confidence ++ ")") }
  else
    { department := result.department, confidence := result.confidence,
      row := row_index, original := original,
      suggested := result.department, source := source,
      needs_manual_review := false, reason := none }

/-- One entry of `column_classifications` as the mapping step reads it:
the classified category and the `original_name` the orchestrator added. -/
structure ColClassification where
  category : String
  original_name : String
  deriving DecidableEq

/-- Lines 121–124 of `run_classifier.main`: insert `category → original_name`
for every non-OTHER classification into an initially empty dict, in list
order (later insertions overwrite earlier ones). -/
def column_mapping (cls : List ColClassification) : String → Option String :=
  cls.foldl
    (fun m c =>
      if c.category ≠ "OTHER" then
        fun k => if k = c.category then some c.original_name else m k
      else m)
    (fun _ => none)

/-- A raw spreadsheet cell as `pd.read_excel(..., header=None)` delivers it:
a string, a non-string scalar (numbers, dates, booleans are all non-strings
for the `isinstance(val, str)` test), or a missing cell (NaN). -/
inductive Cell where
  | str (s : String)
  | scalar (q : ℚ)
  | empty
  deriving DecidableEq

/-- `pd.isna` on a raw cell. -/
def Cell.isNA : Cell → Bool
  | .empty => true
  | _ => false

/-- A column label of the returned frame: a header-derived string, or the
default positional integer label pandas keeps when no header is detected. -/
inductive ColName where
  | name (s : String)
  | pos (i : Nat)
  deriving DecidableEq

/-- `string_count = sum(1 for val in first_row if isinstance(val, str))`:
counts every string cell, empty strings included. -/
def string_count (row : List Cell) : Nat :=
  (row.filter fun c => c matches Cell.str _).length

/-- The header cell rule of `read_excel_file` (lines 76–80): a non-blank
string cell becomes the stripped name, anything else `Column_<index>`. -/
def header_name (idx : Nat) : Cell → String
  | .str s => if pyStrip s ≠ "" then pyStrip s else "Column_" ++ toString idx
  | _ => "Column_" ++ toString idx

/-- Column names built from a detected header row. -/
def header_names (row : List Cell) : List String :=
  row.enum.map fun p => header_name p.1 p.2

/-- `read_excel_file` (lines 60–97 of `xlsx_parser.py`) on the raw sheet
rows: drop fully-empty rows; if strictly more than half of the first row's
cells are strings, use it as the header (bad cells replaced per
`header_name`) and drop it from the data; otherwise keep every row and the
default positional column labels.  `none` models the `ValueError` raised
when the sheet has no non-empty row (`df_raw.iloc[0]` fails). -/
def read_excel_file (rows : List (List Cell)) :
    Option (List ColName × List (List Cell)) :=
  let kept := rows.filter fun r => ! r.all Cell.isNA
  match kept with
  | [] => none
  | first :: rest =>
    if 2 * string_count first > first.length then
      some ((header_names first).map ColName.name, rest)
    else
      some ((List.range first.length).map ColName.pos, first :: rest)

/-- Modelled from the spec: the header condition as the specification words
it — "strictly more than 50% of the first row's cells are non-empty
strings" — for comparison with the `string_count` test the code performs. -/
def spec_nonempty_string_count (row : List Cell) : Nat :=
  (row.filter fun c => match c with | .str s => s ≠ "" | _ => false).length

/-- A sampler fixture for witnesses: draws nothing. -/
def wSampler : Nat → Nat → List Nat := fun _ _ => []

/-- A column-client fixture answering with low confidence. -/
def wColClientLow : ColumnPrompt → ColReply := fun _ => ⟨"title", 1 / 2⟩

/-- A column-client fixture answering with high confidence. -/
def wColClientHigh : ColumnPrompt → ColReply := fun _ => ⟨"title", 9 / 10⟩

/-- A department-client fixture answering with low confidence. -/
def wDeptClientLow : DeptPrompt → DeptReply := fun _ => ⟨"IT", 1 / 2⟩

-- ===========================================================================
-- Theorems
-- ===========================================================================

lemma process_column_of_ne (sampler : Nat → Nat → List Nat)
    (client : ColumnPrompt → ColReply) (column : List (Option String))
    (column_name dtype : String) (categories : List String)
    (hne : column.filterMap id ≠ []) :
    process_column sampler client column column_name dtype categories =
      (if (client (column_prompt_of sampler column column_name dtype categories)).confidence
          < CONFIDENCE_THRESHOLD then
        ⟨"OTHER",
         (client (column_prompt_of sampler column column_name dtype categories)).confidence,
         true,
         some ("Low confidence (" ++
           toString (client (column_prompt_of sampler column column_name dtype
             categories)).confidence ++ ")")⟩
      else
        ⟨(client (column_prompt_of sampler column column_name dtype categories)).category,
         (client (column_prompt_of sampler column column_name dtype categories)).confidence,
         false, none⟩) := by
  unfold process_column
  simp [List.length_eq_zero, hne]

lemma process_column_of_empty (sampler : Nat → Nat → List Nat)
    (client : ColumnPrompt → ColReply) (column : List (Option String))
    (column_name dtype : String) (categories : List String)
    (h : column.filterMap id = []) :
    process_column sampler client column column_name dtype categories =
      ⟨"OTHER", 0, true, some "Column is empty"⟩ := by
  unfold process_column
  simp [h]

/-- C1: for both column and department classification, a client confidence
strictly below 0.6 forces the category (resp. suggested department) to
"OTHER" with `needs_manual_review` true and reason
"Low confidence (<value>)", while a confidence at or above 0.6 leaves the
client's label untouched, with `needs_manual_review` false and no reason. -/
theorem confidence_gate_spec (sampler : Nat → Nat → List Nat)
    (cclient : ColumnPrompt → ColReply) (dclient : DeptPrompt → DeptReply)
    (column : List (Option String)) (column_name dtype : String)
    (categories : List String) (row : Nat) (dv t d : Option String)
    (departments : List String)
    (hne : column.filterMap id ≠ []) :
    (((cclient (column_prompt_of sampler column column_name dtype categories)).confidence
        < 3 / 5 →
      (process_column sampler cclient column column_name dtype categories).category
          = "OTHER" ∧
      (process_column sampler cclient column column_name dtype categories).needs_manual_review
          = true ∧
      (process_column sampler cclient column column_name dtype categories).reason
          = some ("Low confidence (" ++
              toString (cclient (column_prompt_of sampler column column_name dtype
                categories)).confidence ++ ")")) ∧
     ((3 / 5 : ℚ) ≤
        (cclient (column_prompt_of sampler column column_name dtype categories)).confidence →
      (process_column sampler cclient column column_name dtype categories).category
          = (cclient (column_prompt_of sampler column column_name dtype categories)).category ∧
      (process_column sampler cclient column column_name dtype categories).needs_manual_review
          = false ∧
      (process_column sampler cclient column column_name dtype categories).reason = none)) ∧
    (((dclient ⟨dv, t, d, departments⟩).confidence < 3 / 5 →
      (process_department dclient row dv t d departments).suggested = "OTHER" ∧
      (process_department dclient row dv t d departments).needs_manual_review = true ∧
      (process_department dclient row dv t d departments).reason
          = some ("Low confidence (" ++
              toString (dclient ⟨dv, t, d, departments⟩).confidence ++ ")")) ∧
     ((3 / 5 : ℚ) ≤ (dclient ⟨dv, t, d, departments⟩).confidence →
      (process_department dclient row dv t d departments).suggested
          = (dclient ⟨dv, t, d, departments⟩).department ∧
      (process_department dclient row dv t d departments).needs_manual_review = false ∧
      (process_department dclient row dv t d departments).reason = none)) := by
  have hc := process_column_of_ne sampler cclient column column_name dtype categories hne
  refine ⟨⟨fun h => ?_, fun h => ?_⟩, ⟨fun h => ?_, fun h => ?_⟩⟩
  · rw [hc]; simp [CONFIDENCE_THRESHOLD, h]
  · rw [hc]; simp [CONFIDENCE_THRESHOLD, not_lt.mpr h]
  · simp [process_department, CONFIDENCE_THRESHOLD, h]
  · simp [process_department, CONFIDENCE_THRESHOLD, not_lt.mpr h]

/-- Witness for C1 at a concrete one-cell column, a low-confidence column
client and a low-confidence department client. -/
theorem confidence_gate_spec_witness :
    (process_column wSampler wColClientLow [some "x"] "h" "object"
        COLUMN_CATEGORIES).category = "OTHER" ∧
    (process_department wDeptClientLow 0 (some "IT") none none
        FIXED_DEPARTMENTS).suggested = "OTHER" := by
  have h := confidence_gate_spec wSampler wColClientLow wDeptClientLow
    [some "x"] "h" "object" COLUMN_CATEGORIES 0 (some "IT") none none
    FIXED_DEPARTMENTS (by decide)
  exact ⟨(h.1.1 (by norm_num [wColClientLow])).1,
         (h.2.1 (by norm_num [wDeptClientLow])).1⟩

/-- C2: the classification client wrappers are total functions of the chat
outcome (they never propagate an exception), and on a transport failure, a
malformed JSON body, or a parsed payload on which the validation
`'category' not in result or 'confidence' not in result` fires — the
Python membership test is false, or raises `TypeError` on a
non-container payload — they return exactly the fallback payload with
label "OTHER" and confidence 0.0.  (A payload passing both membership
tests, a dict with both keys but also e.g. the list
`["category", "confidence"]`, is returned verbatim, which is outside this
claim's trigger conditions.) -/
theorem classify_fallback_spec :
    (Llama3Client.classify_column .failure = columnFallback) ∧
    (Llama3Client.classify_column (.reply none) = columnFallback) ∧
    (∀ j : JValue,
        ¬ (j.pyIn "category" = some true ∧ j.pyIn "confidence" = some true) →
        Llama3Client.classify_column (.reply (some j)) = columnFallback) ∧
    (Llama3Client.classify_department .failure = deptFallback) ∧
    (Llama3Client.classify_department (.reply none) = deptFallback) ∧
    (∀ j : JValue,
        ¬ (j.pyIn "department" = some true ∧ j.pyIn "confidence" = some true) →
        Llama3Client.classify_department (.reply (some j)) = deptFallback) := by
  refine ⟨rfl, rfl, fun j h => ?_, rfl, rfl, fun j h => ?_⟩
  · simp only [Llama3Client.classify_column, if_neg h]
  · simp only [Llama3Client.classify_department, if_neg h]

/-- Witness for C2: a parsed reply `{"confidence": 0.9}` that lacks the
`category` key is degraded to the fallback payload. -/
theorem classify_fallback_spec_witness :
    Llama3Client.classify_column
        (.reply (some (.obj [("confidence", .num (9 / 10))]))) =
      columnFallback :=
  classify_fallback_spec.2.2.1 (.obj [("confidence", .num (9 / 10))])
    (by decide)

/-- C3: a column with no non-missing value is classified
`{category: OTHER, confidence: 0.0, needs_manual_review: true,
reason: "Column is empty"}`, and the classification client is never
consulted: the outcome is the same for every client. -/
theorem empty_column_spec (sampler : Nat → Nat → List Nat)
    (client : ColumnPrompt → ColReply) (column : List (Option String))
    (column_name dtype : String) (categories : List String)
    (h : column.filterMap id = []) :
    process_column sampler client column column_name dtype categories =
      ⟨"OTHER", 0, true, some "Column is empty"⟩ ∧
    ∀ client' : ColumnPrompt → ColReply,
      process_column sampler client' column column_name dtype categories =
      process_column sampler client column column_name dtype categories := by
  have he : ∀ c : ColumnPrompt → ColReply,
      process_column sampler c column column_name dtype categories =
        ⟨"OTHER", 0, true, some "Column is empty"⟩ := fun c =>
    process_column_of_empty sampler c column column_name dtype categories h
  exact ⟨he client, fun client' => (he client').trans (he client).symm⟩

/-- Witness for C3 at the one-cell all-missing column `[none]`. -/
theorem empty_column_spec_witness :
    process_column wSampler wColClientHigh [none] "c" "float64"
        COLUMN_CATEGORIES = ⟨"OTHER", 0, true, some "Column is empty"⟩ :=
  (empty_column_spec wSampler wColClientHigh [none] "c" "float64"
    COLUMN_CATEGORIES rfl).1

/-- C4: the department result's `source` is "normalized" exactly when the
original department value is present and non-empty after trimming, and
"inferred_from_content" exactly otherwise. -/
theorem dept_source_spec (client : DeptPrompt → DeptReply) (row : Nat)
    (dv t d : Option String) (departments : List String) :
    ((process_department client row dv t d departments).source = "normalized"
        ↔ pyStrip (dv.getD "") ≠ "") ∧
    ((process_department client row dv t d departments).source
        = "inferred_from_content" ↔ pyStrip (dv.getD "") = "") := by
  have hsrc : (process_department client row dv t d departments).source =
      if dept_value_present dv then "normalized" else "inferred_from_content" := by
    unfold process_department
    by_cases h : (client ⟨dv, t, d, departments⟩).confidence < CONFIDENCE_THRESHOLD <;>
      simp [h]
  have hpres : dept_value_present dv = true ↔ pyStrip (dv.getD "") ≠ "" := by
    cases dv with
    | none =>
      simp [dept_value_present]
      decide
    | some s => simp [dept_value_present]
  rw [hsrc]
  by_cases h : dept_value_present dv = true
  · rw [if_pos h]
    refine ⟨⟨fun _ => hpres.mp h, fun _ => rfl⟩, ⟨fun hx => absurd hx (by decide), ?_⟩⟩
    intro hx
    exact absurd hx (hpres.mp h)
  · rw [if_neg h]
    have : ¬ pyStrip (dv.getD "") ≠ "" := fun hx => h (hpres.mpr hx)
    refine ⟨⟨fun hx => absurd hx (by decide), fun hx => absurd hx this⟩,
      ⟨fun _ => not_not.mp this, fun _ => rfl⟩⟩

/-- C10: when a department result is downgraded for low confidence, only
`suggested`, `needs_manual_review` and `reason` are touched: the result
still carries the client's raw label under `department` and the client's
confidence, next to `suggested = "OTHER"`, and `row`, `original` and
`source` hold the same values as in the confident case. -/
theorem dept_low_conf_frame_spec (client : DeptPrompt → DeptReply)
    (row : Nat) (dv t d : Option String) (departments : List String)
    (h : (client ⟨dv, t, d, departments⟩).confidence < 3 / 5) :
    (process_department client row dv t d departments).department
        = (client ⟨dv, t, d, departments⟩).department ∧
    (process_department client row dv t d departments).confidence
        = (client ⟨dv, t, d, departments⟩).confidence ∧
    (process_department client row dv t d departments).suggested = "OTHER" ∧
    (process_department client row dv t d departments).needs_manual_review
        = true ∧
    (process_department client row dv t d departments).reason
        = some ("Low confidence (" ++
            toString (client ⟨dv, t, d, departments⟩).confidence ++ ")") ∧
    (process_department client row dv t d departments).row = row ∧
    (process_department client row dv t d departments).original
        = dv.getD "" ∧
    (process_department client row dv t d departments).source
        = (if dept_value_present dv then "normalized"
           else "inferred_from_content") := by
  unfold process_department
  simp [CONFIDENCE_THRESHOLD, h]

/-- Witness for C10 with a client replying ("IT", 0.5) on a present
department value. -/
theorem dept_low_conf_frame_spec_witness :
    (process_department wDeptClientLow 3 (some "tech") none none
        FIXED_DEPARTMENTS).department = "IT" ∧
    (process_department wDeptClientLow 3 (some "tech") none none
        FIXED_DEPARTMENTS).confidence = 1 / 2 ∧
    (process_department wDeptClientLow 3 (some "tech") none none
        FIXED_DEPARTMENTS).suggested = "OTHER" := by
  have h := dept_low_conf_frame_spec wDeptClientLow 3 (some "tech") none none
    FIXED_DEPARTMENTS (by norm_num [wDeptClientLow])
  exact ⟨h.1, h.2.1, h.2.2.1⟩


lemma column_mapping_eq (cls : List ColClassification) (cat : String)
    (hcat : cat ≠ "OTHER") :
    column_mapping cls cat =
      ((cls.filter fun c => c.category = cat).getLast?).map
        (·.original_name) := by
  induction cls using List.reverseRecOn with
  | nil => rfl
  | append_singleton xs c ih =>
    unfold column_mapping at ih ⊢
    rw [List.foldl_append, List.foldl_cons, List.foldl_nil, List.filter_append]
    by_cases hc : c.category = "OTHER"
    · have hne : ¬ c.category = cat := fun h => hcat (h ▸ hc)
      simp only [if_neg (not_not_intro hc)]
      rw [ih]
      have hfc : [c].filter (fun c' => c'.category = cat) = [] := by
        simp [hne]
      rw [hfc, List.append_nil]
    · simp only [if_pos hc]
      by_cases hk : cat = c.category
      · rw [if_pos hk]
        have hfc : [c].filter (fun c' => c'.category = cat) = [c] := by
          simp [hk.symm]
        rw [hfc, List.getLast?_concat]
        rfl
      · rw [if_neg hk]
        rw [ih]
        have hne2 : ¬ c.category = cat := fun h => hk h.symm
        have hfc : [c].filter (fun c' => c'.category = cat) = [] := by
          simp [hne2]
        rw [hfc, List.append_nil]

/-- C5: the column mapping never holds an "OTHER" key; for every other
category label, its entry is the `original_name` of the last classification
in list order carrying that label (last-write-wins), and in particular the
mapping has an entry for every non-OTHER label that appears. -/
theorem column_mapping_spec (cls : List ColClassification) (cat : String) :
    column_mapping cls "OTHER" = none ∧
    (cat ≠ "OTHER" →
      column_mapping cls cat =
        ((cls.filter fun c => c.category = cat).getLast?).map
          (·.original_name)) ∧
    (cat ≠ "OTHER" → (∃ c ∈ cls, c.category = cat) →
      ∃ v, column_mapping cls cat = some v) := by
  have hother : column_mapping cls "OTHER" = none := by
    induction cls using List.reverseRecOn with
    | nil => rfl
    | append_singleton xs c ih =>
      unfold column_mapping at ih ⊢
      rw [List.foldl_append, List.foldl_cons, List.foldl_nil]
      by_cases hc : c.category = "OTHER"
      · simp only [if_neg (not_not_intro hc)]
        exact ih
      · simp only [if_pos hc]
        rw [if_neg (fun h => hc h.symm)]
        exact ih
  refine ⟨hother, fun hcat => column_mapping_eq cls cat hcat,
    fun hcat hex => ?_⟩
  rcases hex with ⟨c, hmem, hcc⟩
  rw [column_mapping_eq cls cat hcat]
  have hcf : c ∈ cls.filter (fun c' => c'.category = cat) :=
    List.mem_filter.mpr ⟨hmem, by simp [hcc]⟩
  have hne : cls.filter (fun c' => c'.category = cat) ≠ [] :=
    List.ne_nil_of_mem hcf
  obtain ⟨y, hy⟩ :=
    Option.isSome_iff_exists.mp (List.getLast?_isSome.mpr hne)
  exact ⟨y.original_name, by rw [hy]; rfl⟩

/-- A classification-list fixture: two columns share "title", a third is
"OTHER". -/
def wCls : List ColClassification :=
  [⟨"title", "A"⟩, ⟨"title", "B"⟩, ⟨"OTHER", "C"⟩]

/-- Witness for C5: on `wCls`, "OTHER" is absent and "title" maps to the
later column "B". -/
theorem column_mapping_spec_witness :
    column_mapping wCls "OTHER" = none ∧
    column_mapping wCls "title" = some "B" := by
  have h := column_mapping_spec wCls "title"
  refine ⟨h.1, ?_⟩
  rw [h.2.1 (by decide)]
  rfl

/-- C7: with the seed fixed, the draw is a pure function, so sampling is
deterministic — it depends only on the sequence of non-missing values:
two columns with the same non-missing values (wherever their missing cells
sit) produce the same sample list, hence the same sample set. -/
theorem sampling_deterministic_spec (sampler : Nat → Nat → List Nat)
    (column₁ column₂ : List (Option String))
    (h : column₁.filterMap id = column₂.filterMap id) :
    sample_values sampler (column₁.filterMap id) =
      sample_values sampler (column₂.filterMap id) ∧
    (sample_values sampler (column₁.filterMap id)).toFinset =
      (sample_values sampler (column₂.filterMap id)).toFinset := by
  rw [h]
  exact ⟨rfl, rfl⟩

/-- Witness for C7: the columns `[some "a", none]` and `[none, some "a"]`
share the non-missing values `["a"]` and get the same sample. -/
theorem sampling_deterministic_spec_witness :
    sample_values wSampler ([some "a", none].filterMap id) =
      sample_values wSampler ([none, some "a"].filterMap id) :=
  (sampling_deterministic_spec wSampler [some "a", none] [none, some "a"]
    rfl).1

lemma sample_values_subset (sampler : Nat → Nat → List Nat)
    (vals : List String) :
    ∀ a ∈ vals.take 5 ++ random_draw sampler vals, a ∈ vals := by
  intro a ha
  rcases List.mem_append.mp ha with h | h
  · exact List.mem_of_mem_take h
  · rcases List.mem_filterMap.mp h with ⟨i, _, hget⟩
    exact List.get?_mem hget

/-- C6 (amended): with at least five non-missing values, the sample size is
at most `min 10 (number of distinct stringified non-missing values)`; the
claimed equality fails because the seeded draw may repeat values already
among the first five. -/
theorem sample_size_bound_spec (sampler : Nat → Nat → List Nat)
    (column : List (Option String))
    (_h : 5 ≤ (column.filterMap id).length) :
    (sample_values sampler (column.filterMap id)).length ≤
      min 10 (column.filterMap id).dedup.length := by
  set vals := column.filterMap id with hv
  unfold sample_values
  refine le_min (List.length_take_le 10 _) ?_
  have hsub : (vals.take 5 ++ random_draw sampler vals).toFinset ⊆
      vals.toFinset := by
    intro a ha
    exact List.mem_toFinset.mpr
      (sample_values_subset sampler vals a (List.mem_toFinset.mp ha))
  have h1 : (((vals.take 5 ++ random_draw sampler vals).dedup).take 10).length ≤
      ((vals.take 5 ++ random_draw sampler vals).dedup).length :=
    List.length_take_le' _ _
  have h2 : ((vals.take 5 ++ random_draw sampler vals).dedup).length =
      (vals.take 5 ++ random_draw sampler vals).toFinset.card :=
    (List.card_toFinset _).symm
  have h3 : (vals.take 5 ++ random_draw sampler vals).toFinset.card ≤
      vals.toFinset.card := Finset.card_le_card hsub
  have h4 : vals.toFinset.card = vals.dedup.length := List.card_toFinset vals
  omega

/-- Witness for C6 (amended) on an eleven-value column with a draw that
repeats the first five indices. -/
theorem sample_size_bound_spec_witness :
    5 ≤ (((List.range 11).map fun i =>
        some ("v" ++ toString i)).filterMap id).length ∧
    (sample_values (fun n _ => List.range n)
        (((List.range 11).map fun i =>
          some ("v" ++ toString i)).filterMap id)).length ≤
      min 10 (((List.range 11).map fun i =>
        some ("v" ++ toString i)).filterMap id).dedup.length :=
  ⟨by decide,
   sample_size_bound_spec (fun n _ => List.range n)
     ((List.range 11).map fun i => some ("v" ++ toString i)) (by decide)⟩

/-- Counterexample for C6 as stated: the column of eleven distinct values
`v0 … v10` has `min 10 11 = 10` distinct stringified values, yet when the
seeded draw returns the first five positions (a legal without-replacement
draw), the deduplicated sample has only 5 elements. -/
theorem sample_size_cex :
    5 ≤ (((List.range 11).map fun i =>
        some ("v" ++ toString i)).filterMap id).length ∧
    ¬ (sample_values (fun n _ => List.range n)
        (((List.range 11).map fun i =>
          some ("v" ++ toString i)).filterMap id)).length =
      min 10 (((List.range 11).map fun i =>
        some ("v" ++ toString i)).filterMap id).dedup.length := by
  constructor
  · decide
  · decide

/-- C9 (amended): a column classification's category is always either
"OTHER" or the exact label the client returned; it therefore lies in the
fixed taxonomy whenever the client's label does, but the code performs no
membership validation, so an out-of-taxonomy client label is carried
verbatim into the result when the confidence passes the threshold. -/
theorem category_taxonomy_spec (sampler : Nat → Nat → List Nat)
    (client : ColumnPrompt → ColReply) (column : List (Option String))
    (column_name dtype : String)
    (hcl : (client (column_prompt_of sampler column column_name dtype
        COLUMN_CATEGORIES)).category ∈ COLUMN_CATEGORIES) :
    (process_column sampler client column column_name dtype
        COLUMN_CATEGORIES).category ∈ COLUMN_CATEGORIES := by
  by_cases hne : column.filterMap id = []
  · rw [process_column_of_empty sampler client column column_name dtype
      COLUMN_CATEGORIES hne]
    show "OTHER" ∈ COLUMN_CATEGORIES
    decide
  · rw [process_column_of_ne sampler client column column_name dtype
      COLUMN_CATEGORIES hne]
    by_cases h : (client (column_prompt_of sampler column column_name dtype
        COLUMN_CATEGORIES)).confidence < CONFIDENCE_THRESHOLD
    · rw [if_pos h]
      show "OTHER" ∈ COLUMN_CATEGORIES
      decide
    · rw [if_neg h]
      exact hcl

/-- Witness for C9 (amended): a compliant client answering
("title", 0.9) yields a category inside the taxonomy. -/
theorem category_taxonomy_spec_witness :
    (process_column wSampler wColClientHigh [some "x"] "h" "object"
        COLUMN_CATEGORIES).category ∈ COLUMN_CATEGORIES :=
  category_taxonomy_spec wSampler wColClientHigh [some "x"] "h" "object"
    (by decide)

/-- A client fixture returning a confident free-text label outside the
taxonomy. -/
def cexClientFree : ColumnPrompt → ColReply := fun _ => ⟨"banana", 9 / 10⟩

/-- Counterexample for C9 as stated: a client reply
`{"category": "banana", "confidence": 0.9}` passes the confidence gate and
the result carries the out-of-taxonomy label "banana". -/
theorem category_taxonomy_cex :
    (process_column wSampler cexClientFree [some "x"] "h" "object"
        COLUMN_CATEGORIES).category = "banana" ∧
    "banana" ∉ COLUMN_CATEGORIES := by
  constructor
  · rw [process_column_of_ne wSampler cexClientFree [some "x"] "h" "object"
      COLUMN_CATEGORIES (by decide)]
    rw [if_neg (by norm_num [cexClientFree, CONFIDENCE_THRESHOLD])]
    rfl
  · decide

/-- C8 (amended): after dropping fully-empty rows, if strictly more than
50% of the first row's cells are strings (empty or blank strings count),
the first row becomes the header and is removed from the data, each
non-string or blank header cell contributing the name "Column_<index>";
otherwise the first row stays in the data and the columns keep pandas'
default positional integer labels (not "Column_<index>"). -/
theorem excel_header_spec (rows : List (List Cell)) (first : List Cell)
    (rest : List (List Cell))
    (h : rows.filter (fun r => ! r.all Cell.isNA) = first :: rest) :
    (2 * string_count first > first.length →
      read_excel_file rows =
        some ((header_names first).map ColName.name, rest)) ∧
    (¬ 2 * string_count first > first.length →
      read_excel_file rows =
        some ((List.range first.length).map ColName.pos, first :: rest)) ∧
    (∀ (i : Nat) (c : Cell), (∀ s, c = Cell.str s → pyStrip s = "") →
      header_name i c = "Column_" ++ toString i) := by
  refine ⟨fun hgt => ?_, fun hle => ?_, fun i c hc => ?_⟩
  · unfold read_excel_file
    rw [h]
    simp only [if_pos hgt]
  · unfold read_excel_file
    rw [h]
    simp only [if_neg hle]
  · cases c with
    | str s =>
      have hs : pyStrip s = "" := hc s rfl
      simp [header_name, hs]
    | scalar q => rfl
    | empty => rfl

/-- A raw-sheet fixture whose first row is two thirds strings. -/
def wRows : List (List Cell) :=
  [[Cell.str "Name", Cell.str " Dept ", Cell.scalar 3],
   [Cell.str "a", Cell.str "b", Cell.scalar 1]]

/-- Witness for C8 (amended): on `wRows` the first row is detected as the
header, the blank-or-non-string third cell becomes "Column_2", " Dept " is
stripped, and only the second row remains as data. -/
theorem excel_header_spec_witness :
    read_excel_file wRows =
      some ([ColName.name "Name", ColName.name "Dept", ColName.name "Column_2"],
            [[Cell.str "a", Cell.str "b", Cell.scalar 1]]) := by
  have h := excel_header_spec wRows
    [Cell.str "Name", Cell.str " Dept ", Cell.scalar 3]
    [[Cell.str "a", Cell.str "b", Cell.scalar 1]] rfl
  rw [h.1 (by decide)]
  rfl

/-- Counterexample for C8 as stated: (a) a numeric first row fails the
header test, and the code keeps pandas' positional integer labels, not the
claimed "Column_<index>" names; (b) a first row of three empty strings and
a number has zero non-empty strings — so the claim's ">50% non-empty
strings" condition fails — yet the code consumes it as a header row,
dropping it from the data. -/
theorem excel_header_cex :
    read_excel_file [[Cell.scalar 7, Cell.scalar 8],
                     [Cell.scalar 1, Cell.scalar 2]] =
      some ([ColName.pos 0, ColName.pos 1],
            [[Cell.scalar 7, Cell.scalar 8], [Cell.scalar 1, Cell.scalar 2]]) ∧
    ColName.pos 0 ≠ ColName.name "Column_0" ∧
    2 * spec_nonempty_string_count
        [Cell.str "", Cell.str "", Cell.str "", Cell.scalar 1] ≤ 4 ∧
    read_excel_file [[Cell.str "", Cell.str "", Cell.str "", Cell.scalar 1],
                     [Cell.scalar 1, Cell.scalar 2, Cell.scalar 3,
                      Cell.scalar 4]] =
      some ([ColName.name "Column_0", ColName.name "Column_1",
             ColName.name "Column_2", ColName.name "Column_3"],
            [[Cell.scalar 1, Cell.scalar 2, Cell.scalar 3, Cell.scalar 4]]) := by
  refine ⟨rfl, by decide, by decide, rfl⟩
